import Mathlib

/-!
Verification of `git_push.py`, an interactive helper that stages all
changes, collects a commit message, asks for confirmation, commits and
pushes.  The script is pure orchestration over subprocess calls, so we
embed it as pure functions over an injected subprocess layer (a
`Runner`) together with the list of operator input lines, and we record
the argument vectors of every external invocation in a `Trace`.
-/

namespace GitPush

/-- Result of one external command: `(returncode, stdout, stderr)`,
mirroring the triple returned by `run_command`. -/
structure CmdResult where
  returncode : Int
  stdout : String
  stderr : String
deriving Repr, DecidableEq

/-- The raw subprocess layer: for an argument vector, either the
completed process result (`Except.ok`) or the text of an exception
raised while invoking it (`Except.error`), mirroring the `try/except`
in `run_command`. -/
abbrev Runner := List String → Except String CmdResult

/-- The argument vectors of the external commands invoked during a run,
in invocation order. -/
abbrev Trace := List (List String)

/-- Python `str.strip()` with no argument: remove leading and trailing
whitespace.  Embedded structurally over the character list so that
concrete runs reduce inside the kernel. -/
def strip (s : String) : String :=
  ⟨((s.data.dropWhile Char.isWhitespace).reverse.dropWhile Char.isWhitespace).reverse⟩

/-- Python `str.lower()` restricted to ASCII case folding — the only
case-bearing characters in the confirmation token sets. -/
def lower (s : String) : String :=
  ⟨s.data.map Char.toLower⟩

/-- `run_command` of `git_push.py`: runs the command through the raw
subprocess layer; if the invocation raises, it returns
`(1, "", str(e))`.  The second component records the invocation. -/
def run_command (raw : Runner) (command : List String) : CmdResult × Trace :=
  (match raw command with
   | Except.ok result => result
   | Except.error e => ⟨1, "", e⟩,
   [command])

/-- `check_git_repository`: `git rev-parse --git-dir` returns zero. -/
def check_git_repository (raw : Runner) : Bool × Trace :=
  let p := run_command raw ["git", "rev-parse", "--git-dir"]
  (p.1.returncode == 0, p.2)

/-- `get_git_status`: `git status --porcelain`; on non-zero exit it logs
the error and returns the empty string, otherwise the stdout text. -/
def get_git_status (raw : Runner) : String × Trace :=
  let p := run_command raw ["git", "status", "--porcelain"]
  (if p.1.returncode ≠ 0 then "" else p.1.stdout, p.2)

/-- `add_all_files`: `git add .`, false on non-zero exit. -/
def add_all_files (raw : Runner) : Bool × Trace :=
  let p := run_command raw ["git", "add", "."]
  (p.1.returncode == 0, p.2)

/-- `get_commit_message`: reads one line, strips it, and rejects the
empty result (`None`). -/
def get_commit_message (line : String) : Option String :=
  let message := strip line
  if message = "" then none else some message

/-- The three possible reactions of one iteration of the confirmation
loop to an input line. -/
inductive ConfirmAction where
  | accept
  | reject
  | reprompt
deriving Repr, DecidableEq

/-- One iteration of the `confirm_commit` loop, as a pure function of
the next input line: strip, lowercase, and compare against the fixed
affirmative and negative token sets. -/
def classifyConfirm (line : String) : ConfirmAction :=
  let confirm := lower (strip line)
  if confirm ∈ ["y", "yes", "是", "確認"] then ConfirmAction.accept
  else if confirm ∈ ["n", "no", "否", "取消"] then ConfirmAction.reject
  else ConfirmAction.reprompt

/-- `confirm_commit`: repeats the yes/no prompt over the remaining input
lines until one is a recognized affirmative or negative token; `none`
means the input lines ran out with no decision (the script would still
be blocked waiting for input). -/
def confirm_commit (message : String) : List String → Option Bool
  | [] => none
  | line :: rest =>
    match classifyConfirm line with
    | ConfirmAction.accept => some true
    | ConfirmAction.reject => some false
    | ConfirmAction.reprompt => confirm_commit message rest

/-- `commit_changes`: `git commit -m <message>`, false on non-zero exit. -/
def commit_changes (raw : Runner) (message : String) : Bool × Trace :=
  let p := run_command raw ["git", "commit", "-m", message]
  (p.1.returncode == 0, p.2)

/-- `push_to_remote`: resolves the current branch with
`git branch --show-current`, returns false on non-zero exit, otherwise
pushes the stripped branch name to the fixed remote `origin` and
returns false on non-zero exit of the push. -/
def push_to_remote (raw : Runner) : Bool × Trace :=
  let p := run_command raw ["git", "branch", "--show-current"]
  if p.1.returncode ≠ 0 then (false, p.2)
  else
    let branch := strip p.1.stdout
    let q := run_command raw ["git", "push", "origin", branch]
    (q.1.returncode == 0, p.2 ++ q.2)

/-- `main` of `git_push.py`: the whole pipeline.  Returns
`some (exitCode, trace)` where `exitCode` is the process exit code
(`sys.exit`, or falling off the end = 0) and `trace` lists every
external command invoked, in order; `none` means the script is blocked
reading operator input that the given input-line list does not supply. -/
def main (raw : Runner) (inputs : List String) : Option (Nat × Trace) :=
  let c := check_git_repository raw
  if !c.1 then some (1, c.2)
  else
    let s := get_git_status raw
    if s.1 = "" then some (0, c.2 ++ s.2)
    else
      let a := add_all_files raw
      if !a.1 then some (1, c.2 ++ s.2 ++ a.2)
      else
        match inputs with
        | [] => none
        | line :: rest =>
          match get_commit_message line with
          | none => some (1, c.2 ++ s.2 ++ a.2)
          | some message =>
            match confirm_commit message rest with
            | none => none
            | some false => some (0, c.2 ++ s.2 ++ a.2)
            | some true =>
              let k := commit_changes raw message
              if !k.1 then some (1, c.2 ++ s.2 ++ a.2 ++ k.2)
              else
                let u := push_to_remote raw
                if !u.1 then some (1, c.2 ++ s.2 ++ a.2 ++ k.2 ++ u.2)
                else some (0, c.2 ++ s.2 ++ a.2 ++ k.2 ++ u.2)

/-- A command is "mutating" when it is the stage, commit or push
invocation of the script. -/
def isMutating (cmd : List String) : Bool :=
  cmd == ["git", "add", "."] ||
  cmd.take 2 == ["git", "commit"] ||
  cmd.take 2 == ["git", "push"]

/-- The trace contains the stage command. -/
def invokesStage (trace : Trace) : Bool :=
  trace.any fun cmd => cmd == ["git", "add", "."]

/-- The trace contains a commit command. -/
def invokesCommit (trace : Trace) : Bool :=
  trace.any fun cmd => cmd.take 2 == ["git", "commit"]

/-- The trace contains a push command. -/
def invokesPush (trace : Trace) : Bool :=
  trace.any fun cmd => cmd.take 2 == ["git", "push"]

/-! ### Concrete subprocess layers used to exhibit concrete runs -/

/-- A repository with one modified tracked file where every git command
succeeds; the current branch is `main`. -/
def happyRunner : Runner := fun command =>
  if command = ["git", "rev-parse", "--git-dir"] then Except.ok ⟨0, ".git", ""⟩
  else if command = ["git", "status", "--porcelain"] then Except.ok ⟨0, "M file.txt", ""⟩
  else if command = ["git", "add", "."] then Except.ok ⟨0, "", ""⟩
  else if command = ["git", "commit", "-m", "fix bug"] then Except.ok ⟨0, "1 file changed", ""⟩
  else if command = ["git", "branch", "--show-current"] then Except.ok ⟨0, "main\n", ""⟩
  else if command = ["git", "push", "origin", "main"] then Except.ok ⟨0, "", "done"⟩
  else Except.error "unexpected command"

/-- A directory that is not a git repository: every git command fails
with exit code 128. -/
def noRepoRunner : Runner := fun _ =>
  Except.ok ⟨128, "", "fatal: not a git repository"⟩

/-- A repository with a clean working tree: the status query succeeds
with empty output. -/
def cleanRunner : Runner := fun command =>
  if command = ["git", "rev-parse", "--git-dir"] then Except.ok ⟨0, ".git", ""⟩
  else if command = ["git", "status", "--porcelain"] then Except.ok ⟨0, "", ""⟩
  else Except.error "unexpected command"

/-- A repository where the status query itself fails with exit code 1. -/
def statusFailRunner : Runner := fun command =>
  if command = ["git", "rev-parse", "--git-dir"] then Except.ok ⟨0, ".git", ""⟩
  else if command = ["git", "status", "--porcelain"] then Except.ok ⟨1, "", "fatal: bad object"⟩
  else Except.error "unexpected command"

/-- A repository where everything succeeds up to the commit, but the
branch-resolution query inside the push step fails. -/
def branchFailRunner : Runner := fun command =>
  if command = ["git", "rev-parse", "--git-dir"] then Except.ok ⟨0, ".git", ""⟩
  else if command = ["git", "status", "--porcelain"] then Except.ok ⟨0, "M file.txt", ""⟩
  else if command = ["git", "add", "."] then Except.ok ⟨0, "", ""⟩
  else if command = ["git", "commit", "-m", "fix bug"] then Except.ok ⟨0, "1 file changed", ""⟩
  else if command = ["git", "branch", "--show-current"] then
    Except.ok ⟨128, "", "fatal: detached"⟩
  else Except.error "unexpected command"

/-- A subprocess layer whose every invocation raises an exception. -/
def errRunner : Runner := fun _ => Except.error "boom"

/-! ### Helper lemmas -/

/-- The trace component of `run_command` is always the singleton of the
invoked command. -/
theorem run_command_snd (raw : Runner) (command : List String) :
    (run_command raw command).2 = [command] := rfl

/-- When the raw layer completes, `run_command` passes its result on. -/
theorem run_command_ok (raw : Runner) (command : List String) (r : CmdResult)
    (h : raw command = Except.ok r) : run_command raw command = (r, [command]) := by
  simp [run_command, h]

/-- The repository check invokes exactly the rev-parse query. -/
theorem check_git_repository_snd (raw : Runner) :
    (check_git_repository raw).2 = [["git", "rev-parse", "--git-dir"]] := rfl

/-- The status step invokes exactly the porcelain status query. -/
theorem get_git_status_snd (raw : Runner) :
    (get_git_status raw).2 = [["git", "status", "--porcelain"]] := rfl

/-- The stage step invokes exactly `git add .`. -/
theorem add_all_files_snd (raw : Runner) :
    (add_all_files raw).2 = [["git", "add", "."]] := rfl

/-- The commit step invokes exactly `git commit -m <message>`. -/
theorem commit_changes_snd (raw : Runner) (message : String) :
    (commit_changes raw message).2 = [["git", "commit", "-m", message]] := rfl

/-! ### The claims -/

/-- C2: in a working directory that is not version-controlled (the
repository-presence check returns non-zero, which also covers the
invocation raising), the program exits with code 1 and the trace
contains no mutating command (stage, commit or push). -/
theorem c2_not_repo_exits_one (raw : Runner) (inputs : List String)
    (hrepo : (run_command raw ["git", "rev-parse", "--git-dir"]).1.returncode ≠ 0) :
    ∃ trace, main raw inputs = some (1, trace) ∧
      ∀ cmd ∈ trace, isMutating cmd = false := by
  refine ⟨[["git", "rev-parse", "--git-dir"]], ?_, by decide⟩
  have hb : ((run_command raw ["git", "rev-parse", "--git-dir"]).1.returncode == 0) = false := by
    simpa using hrepo
  simp [main, check_git_repository, hb, run_command_snd]

/-- C2 witness: a run of `main` over a layer where every git command
fails with exit 128. -/
theorem c2_not_repo_exits_one_witness :
    ∃ trace, main noRepoRunner [] = some (1, trace) ∧
      ∀ cmd ∈ trace, isMutating cmd = false :=
  c2_not_repo_exits_one noRepoRunner [] (by decide)

/-- C3: when the status query succeeds with empty output, the program
exits with code 0 and the trace contains no mutating command. -/
theorem c3_clean_tree_exits_zero (raw : Runner) (inputs : List String) (se : String)
    (hrepo : (run_command raw ["git", "rev-parse", "--git-dir"]).1.returncode = 0)
    (hstatus : raw ["git", "status", "--porcelain"] = Except.ok ⟨0, "", se⟩) :
    ∃ trace, main raw inputs = some (0, trace) ∧
      ∀ cmd ∈ trace, isMutating cmd = false := by
  refine ⟨[["git", "rev-parse", "--git-dir"], ["git", "status", "--porcelain"]], ?_, by decide⟩
  have hb : ((run_command raw ["git", "rev-parse", "--git-dir"]).1.returncode == 0) = true := by
    simp [hrepo]
  have hs : (get_git_status raw).1 = "" := by
    simp [get_git_status, run_command_ok raw _ _ hstatus]
  simp [main, check_git_repository, hb, hs, run_command_snd, get_git_status_snd,
    check_git_repository_snd]

/-- C3 witness: a run of `main` over a clean repository. -/
theorem c3_clean_tree_exits_zero_witness :
    ∃ trace, main cleanRunner [] = some (0, trace) ∧
      ∀ cmd ∈ trace, isMutating cmd = false :=
  c3_clean_tree_exits_zero cleanRunner [] "" (by decide) rfl

/-- C4 counterexample: on a repository whose status query fails with
exit code 1, `main` exits with code 0, not 1 as the claim states: the
failed status query is conflated with a clean working tree. -/
theorem c4_counterexample :
    main statusFailRunner [] =
      some (0, [["git", "rev-parse", "--git-dir"], ["git", "status", "--porcelain"]]) ∧
    (main statusFailRunner []).map Prod.fst ≠ some 1 := by
  constructor
  · rfl
  · decide

/-- C4 amended: when the status query returns a non-zero exit code, the
program treats it as "no pending changes", invokes no mutating command,
and exits with code 0 (not 1). -/
theorem c4_amended_status_fail_exits_zero (raw : Runner) (inputs : List String)
    (hrepo : (run_command raw ["git", "rev-parse", "--git-dir"]).1.returncode = 0)
    (hstatus : (run_command raw ["git", "status", "--porcelain"]).1.returncode ≠ 0) :
    ∃ trace, main raw inputs = some (0, trace) ∧
      ∀ cmd ∈ trace, isMutating cmd = false := by
  refine ⟨[["git", "rev-parse", "--git-dir"], ["git", "status", "--porcelain"]], ?_, by decide⟩
  have hb : ((run_command raw ["git", "rev-parse", "--git-dir"]).1.returncode == 0) = true := by
    simp [hrepo]
  have hs : (get_git_status raw).1 = "" := by
    simp [get_git_status, hstatus]
  simp [main, check_git_repository, hb, hs, run_command_snd, get_git_status_snd,
    check_git_repository_snd]

/-- C4 amended witness: a run of `main` over a repository with a
failing status query. -/
theorem c4_amended_status_fail_exits_zero_witness :
    ∃ trace, main statusFailRunner [] = some (0, trace) ∧
      ∀ cmd ∈ trace, isMutating cmd = false :=
  c4_amended_status_fail_exits_zero statusFailRunner [] (by decide) (by decide)

/-- C10: the `run_command` wrapper is total by construction (it is a
function into `CmdResult × Trace`); when the raw invocation completes
it returns the process result, and when the raw invocation raises it
returns exit code 1, empty stdout, and the exception text as stderr —
indistinguishable, for every caller, from an external command failing
with exit code 1. -/
theorem c10_run_command_total (raw : Runner) (command : List String) :
    (∀ r, raw command = Except.ok r → run_command raw command = (r, [command])) ∧
    (∀ e, raw command = Except.error e →
      run_command raw command = (⟨1, "", e⟩, [command])) := by
  constructor
  · intro r h
    simp [run_command, h]
  · intro e h
    simp [run_command, h]

/-- C10 witness: a layer whose every invocation raises `boom`. -/
theorem c10_run_command_total_witness :
    run_command errRunner ["git", "add", "."] =
      (⟨1, "", "boom"⟩, [["git", "add", "."]]) :=
  (c10_run_command_total errRunner ["git", "add", "."]).2 "boom" rfl

/-- C5: when the operator's message line is only whitespace (its strip
is empty), and the run has reached the message prompt (repository check
passed, status non-empty, stage succeeded), the program exits with code
1 with the stage command already invoked but no commit and no push
command invoked — a partial-state outcome, not a full no-op. -/
theorem c5_blank_message_aborts (raw : Runner) (line : String) (rest : List String)
    (hrepo : (check_git_repository raw).1 = true)
    (hstatus : (get_git_status raw).1 ≠ "")
    (hadd : (add_all_files raw).1 = true)
    (hline : strip line = "") :
    ∃ trace, main raw (line :: rest) = some (1, trace) ∧
      invokesStage trace = true ∧ invokesCommit trace = false ∧
      invokesPush trace = false := by
  refine ⟨[["git", "rev-parse", "--git-dir"], ["git", "status", "--porcelain"],
    ["git", "add", "."]], ?_, by decide, by decide, by decide⟩
  have hmsg : get_commit_message line = none := by
    simp [get_commit_message, hline]
  simp [main, hrepo, hstatus, hadd, hmsg, check_git_repository_snd, get_git_status_snd,
    add_all_files_snd]

/-- C5 witness: a healthy repository and a whitespace-only message
line. -/
theorem c5_blank_message_aborts_witness :
    ∃ trace, main happyRunner ["   "] = some (1, trace) ∧
      invokesStage trace = true ∧ invokesCommit trace = false ∧
      invokesPush trace = false :=
  c5_blank_message_aborts happyRunner "   " [] (by decide) (by decide) (by decide)
    (by decide)

/-- C7: when the operator declines the confirmation, the stage command
has already been invoked, no commit and no push command is invoked, and
the program exits with code 0. -/
theorem c7_declined_exits_zero (raw : Runner) (line : String) (ansLines : List String)
    (hrepo : (check_git_repository raw).1 = true)
    (hstatus : (get_git_status raw).1 ≠ "")
    (hadd : (add_all_files raw).1 = true)
    (hline : strip line ≠ "")
    (hconfirm : confirm_commit (strip line) ansLines = some false) :
    ∃ trace, main raw (line :: ansLines) = some (0, trace) ∧
      invokesStage trace = true ∧ invokesCommit trace = false ∧
      invokesPush trace = false := by
  refine ⟨[["git", "rev-parse", "--git-dir"], ["git", "status", "--porcelain"],
    ["git", "add", "."]], ?_, by decide, by decide, by decide⟩
  have hmsg : get_commit_message line = some (strip line) := by
    simp [get_commit_message, hline]
  simp [main, hrepo, hstatus, hadd, hmsg, hconfirm, check_git_repository_snd,
    get_git_status_snd, add_all_files_snd]

/-- C7 witness: a healthy repository, message `fix bug`, answer `n`. -/
theorem c7_declined_exits_zero_witness :
    ∃ trace, main happyRunner ["fix bug", "n"] = some (0, trace) ∧
      invokesStage trace = true ∧ invokesCommit trace = false ∧
      invokesPush trace = false :=
  c7_declined_exits_zero happyRunner "fix bug" ["n"] (by decide) (by decide)
    (by decide) (by decide) rfl

/-- C1: the round-trip scenario.  In a repository where the status
query returns `M file.txt`, the operator message is `fix bug`, the
confirmation is answered affirmatively, and each external command
completes with exit 0, `main` exits with code 0 and its trace is
exactly the six git invocations in pipeline order; filtering the trace
to the mutating commands yields stage, then commit, then push, each
exactly once. -/
theorem c1_round_trip (raw : Runner) (ansLines : List String)
    (o1 e1 se ao ae ko ke b be po pe : String)
    (hrepo : raw ["git", "rev-parse", "--git-dir"] = Except.ok ⟨0, o1, e1⟩)
    (hstatus : raw ["git", "status", "--porcelain"] = Except.ok ⟨0, "M file.txt", se⟩)
    (hadd : raw ["git", "add", "."] = Except.ok ⟨0, ao, ae⟩)
    (hconfirm : confirm_commit "fix bug" ansLines = some true)
    (hcommit : raw ["git", "commit", "-m", "fix bug"] = Except.ok ⟨0, ko, ke⟩)
    (hbranch : raw ["git", "branch", "--show-current"] = Except.ok ⟨0, b, be⟩)
    (hpush : raw ["git", "push", "origin", strip b] = Except.ok ⟨0, po, pe⟩) :
    main raw ("fix bug" :: ansLines) =
      some (0, [["git", "rev-parse", "--git-dir"], ["git", "status", "--porcelain"],
        ["git", "add", "."], ["git", "commit", "-m", "fix bug"],
        ["git", "branch", "--show-current"], ["git", "push", "origin", strip b]]) ∧
    List.filter (fun cmd => isMutating cmd)
      [["git", "rev-parse", "--git-dir"], ["git", "status", "--porcelain"],
        ["git", "add", "."], ["git", "commit", "-m", "fix bug"],
        ["git", "branch", "--show-current"], ["git", "push", "origin", strip b]] =
      [["git", "add", "."], ["git", "commit", "-m", "fix bug"],
        ["git", "push", "origin", strip b]] := by
  constructor
  · have hc : check_git_repository raw = (true, [["git", "rev-parse", "--git-dir"]]) := by
      simp [check_git_repository, run_command_ok raw _ _ hrepo]
    have hs : get_git_status raw = ("M file.txt", [["git", "status", "--porcelain"]]) := by
      simp [get_git_status, run_command_ok raw _ _ hstatus]
    have ha : add_all_files raw = (true, [["git", "add", "."]]) := by
      simp [add_all_files, run_command_ok raw _ _ hadd]
    have hmsg : get_commit_message "fix bug" = some "fix bug" := rfl
    have hk : commit_changes raw "fix bug" =
        (true, [["git", "commit", "-m", "fix bug"]]) := by
      simp [commit_changes, run_command_ok raw _ _ hcommit]
    have hp : push_to_remote raw =
        (true, [["git", "branch", "--show-current"], ["git", "push", "origin", strip b]]) := by
      simp [push_to_remote, run_command_ok raw _ _ hbranch, run_command_ok raw _ _ hpush]
    simp [main, hc, hs, ha, hmsg, hconfirm, hk, hp]
  · rfl

/-- C1 witness: the round trip over `happyRunner` with input lines
`fix bug` and `y`. -/
theorem c1_round_trip_witness :
    main happyRunner ["fix bug", "y"] =
      some (0, [["git", "rev-parse", "--git-dir"], ["git", "status", "--porcelain"],
        ["git", "add", "."], ["git", "commit", "-m", "fix bug"],
        ["git", "branch", "--show-current"], ["git", "push", "origin", strip "main\n"]]) ∧
    List.filter (fun cmd => isMutating cmd)
      [["git", "rev-parse", "--git-dir"], ["git", "status", "--porcelain"],
        ["git", "add", "."], ["git", "commit", "-m", "fix bug"],
        ["git", "branch", "--show-current"], ["git", "push", "origin", strip "main\n"]] =
      [["git", "add", "."], ["git", "commit", "-m", "fix bug"],
        ["git", "push", "origin", strip "main\n"]] :=
  c1_round_trip happyRunner ["y"] ".git" "" "" "" "" "1 file changed" "" "main\n" "" ""
    "done" rfl rfl rfl rfl rfl rfl rfl

/-- C8: when the run reaches the push step (repository check passed,
changes present, stage, message, confirmation and commit all succeeded)
and the branch-resolution query returns non-zero, no push command is
invoked and the program exits with code 1. -/
theorem c8_branch_fail_no_push (raw : Runner) (line : String) (ansLines : List String)
    (hrepo : (check_git_repository raw).1 = true)
    (hstatus : (get_git_status raw).1 ≠ "")
    (hadd : (add_all_files raw).1 = true)
    (hline : strip line ≠ "")
    (hconfirm : confirm_commit (strip line) ansLines = some true)
    (hcommit : (commit_changes raw (strip line)).1 = true)
    (hbranch : (run_command raw ["git", "branch", "--show-current"]).1.returncode ≠ 0) :
    ∃ trace, main raw (line :: ansLines) = some (1, trace) ∧
      invokesPush trace = false := by
  refine ⟨[["git", "rev-parse", "--git-dir"], ["git", "status", "--porcelain"],
    ["git", "add", "."], ["git", "commit", "-m", strip line],
    ["git", "branch", "--show-current"]], ?_, rfl⟩
  have hmsg : get_commit_message line = some (strip line) := by
    simp [get_commit_message, hline]
  have hp : push_to_remote raw = (false, [["git", "branch", "--show-current"]]) := by
    simp [push_to_remote, hbranch, run_command_snd]
  simp [main, hrepo, hstatus, hadd, hmsg, hconfirm, hcommit, hp,
    check_git_repository_snd, get_git_status_snd, add_all_files_snd, commit_changes_snd]

/-- C8 witness: everything succeeds up to the commit, then the branch
query fails with exit 128. -/
theorem c8_branch_fail_no_push_witness :
    ∃ trace, main branchFailRunner ["fix bug", "y"] = some (1, trace) ∧
      invokesPush trace = false :=
  c8_branch_fail_no_push branchFailRunner "fix bug" ["y"] (by decide) (by decide)
    (by decide) (by decide) rfl (by decide) (by decide)

/-- C9: whenever the branch-resolution query inside the push step
succeeds, the push command is invoked with exactly the fixed remote
`origin` and the stripped resolved branch name as its targets; and the
push step returns false when the branch-resolution query returns
non-zero (in which case no push command is invoked) or when the push
command itself returns non-zero. -/
theorem c9_push_targets (raw : Runner) :
    (∀ b be, raw ["git", "branch", "--show-current"] = Except.ok ⟨0, b, be⟩ →
      (push_to_remote raw).2 =
        [["git", "branch", "--show-current"], ["git", "push", "origin", strip b]] ∧
      ((run_command raw ["git", "push", "origin", strip b]).1.returncode ≠ 0 →
        (push_to_remote raw).1 = false)) ∧
    ((run_command raw ["git", "branch", "--show-current"]).1.returncode ≠ 0 →
      push_to_remote raw = (false, [["git", "branch", "--show-current"]])) := by
  constructor
  · intro b be h
    constructor
    · simp [push_to_remote, run_command_ok raw _ _ h, run_command_snd]
    · intro hq
      have hq2 : ((run_command raw ["git", "push", "origin", strip b]).1.returncode == 0)
          = false := by
        simpa using hq
      simp [push_to_remote, run_command_ok raw _ _ h, hq2]
  · intro hb
    simp [push_to_remote, hb, run_command_snd]

/-- C9 witness: over `happyRunner` the push step invokes the push
command on remote `origin` and the stripped branch name. -/
theorem c9_push_targets_witness :
    (push_to_remote happyRunner).2 =
      [["git", "branch", "--show-current"], ["git", "push", "origin", strip "main\n"]] :=
  ((c9_push_targets happyRunner).1 "main\n" "" rfl).1

/-- C6: one iteration of the confirmation loop accepts exactly the
inputs whose stripped, lowercased form is one of the four affirmative
tokens and rejects exactly those whose form is one of the four negative
tokens (two languages, matched case-insensitively); on any other line
the loop re-prompts, consuming the line and continuing unchanged; and
the loop returns a decision only when some supplied line carries a
recognized affirmative or negative token. -/
theorem c6_confirm_loop :
    (∀ line,
      (classifyConfirm line = ConfirmAction.accept ↔
        lower (strip line) ∈ ["y", "yes", "是", "確認"]) ∧
      (classifyConfirm line = ConfirmAction.reject ↔
        lower (strip line) ∈ ["n", "no", "否", "取消"])) ∧
    (∀ message line rest, classifyConfirm line = ConfirmAction.reprompt →
      confirm_commit message (line :: rest) = confirm_commit message rest) ∧
    (∀ message lines b, confirm_commit message lines = some b →
      ∃ line ∈ lines, classifyConfirm line =
        (if b then ConfirmAction.accept else ConfirmAction.reject)) := by
  refine ⟨?_, ?_, ?_⟩
  · intro line
    simp only [classifyConfirm]
    generalize lower (strip line) = s
    by_cases h1 : s ∈ ["y", "yes", "是", "確認"]
    · have h2 : s ∉ ["n", "no", "否", "取消"] := by
        simp only [List.mem_cons, List.not_mem_nil, or_false] at h1
        rcases h1 with rfl | rfl | rfl | rfl <;> decide
      simp [h1, h2]
    · by_cases h2 : s ∈ ["n", "no", "否", "取消"]
      · simp [h1, h2]
      · simp [h1, h2]
  · intro message line rest h
    simp [confirm_commit, h]
  · intro message lines
    induction lines with
    | nil =>
      intro b h
      simp [confirm_commit] at h
    | cons l ls ih =>
      intro b h
      cases hc : classifyConfirm l with
      | accept =>
        simp only [confirm_commit, hc] at h
        injection h with hb
        exact ⟨l, List.mem_cons_self l ls, by rw [← hb]; simpa using hc⟩
      | reject =>
        simp only [confirm_commit, hc] at h
        injection h with hb
        exact ⟨l, List.mem_cons_self l ls, by rw [← hb]; simpa using hc⟩
      | reprompt =>
        simp only [confirm_commit, hc] at h
        obtain ⟨line, hmem, hcl⟩ := ih b h
        exact ⟨line, List.mem_cons_of_mem l hmem, hcl⟩

/-- C6 witness: the loop skips the unrecognized line `maybe` and
accepts on `y`. -/
theorem c6_confirm_loop_witness :
    ∃ line ∈ ["maybe", "y"], classifyConfirm line =
      (if (true : Bool) then ConfirmAction.accept else ConfirmAction.reject) :=
  c6_confirm_loop.2.2 "fix bug" ["maybe", "y"] true rfl

end GitPush
